import Mathlib

/-!
Verification development for the client-side session, route-gating,
deploy-readiness and budget-allocation logic of an advertising-automation
dashboard front end.

The definitions below are a shallow embedding of the TypeScript source:

* `AuthContext.tsx` — the session store (`boot`, `fetchUser`, `login`,
  `register`, `logout`) becomes an explicit state machine on `SessionState`
  driven by `step`;
* `App.tsx` — `ProtectedRoute` / `PublicRoute` become pure decision
  functions into `GateDecision`;
* `CampaignInsights.tsx` (the `AccountSetup` component) — the
  `canDeploy` gate and its deploy message;
* `Settings.tsx` — the `saveBudget` allocation validator.

JavaScript numbers are modelled by exact rationals (`Rat`), with a
dedicated `JsNum` type to carry the `NaN` / `Infinity` results of
`parseFloat`.
-/

/-- Ad platforms, per the data model: connections are keyed by
`meta` or `google` (the only two platforms the API exposes). -/
inductive Platform where
  | meta
  | google
deriving DecidableEq, Repr

/-- Connection status of a platform account. -/
inductive ConnStatus where
  | connected
  | disconnected
  | error
deriving DecidableEq, Repr

/-- One entry of the `/ad-accounts` list: `{ platform, status }`. -/
structure AdAccount where
  platform : Platform
  status : ConnStatus
deriving DecidableEq, Repr

/-- Result of JavaScript `parseFloat`: `NaN`, a signed infinity, or a
finite value (modelled exactly as a rational). -/
inductive JsNum where
  | nan
  | inf (pos : Bool)
  | num (q : Rat)
deriving DecidableEq, Repr

/-- Whitespace skipped by `parseFloat` before the number. -/
def isJsWs (c : Char) : Bool :=
  c = ' ' || c = '\t' || c = '\n' || c = '\r'

/-- Numeric value of a digit string (most significant first). -/
def digitsVal (ds : List Char) : Nat :=
  ds.foldl (fun acc c => acc * 10 + (c.toNat - 48)) 0

/-- Model of JavaScript `parseFloat`: skip leading whitespace, read an
optional sign, then the longest valid decimal-literal prefix
(`digits [. digits] [e|E [sign] digits]`, or `Infinity`); if no digits
are found the result is `NaN`.  Extra trailing characters are ignored,
as in JavaScript. -/
def jsParseFloat (s : String) : JsNum :=
  let cs0 := s.data.dropWhile isJsWs
  let signedNeg : Bool × List Char :=
    match cs0 with
    | '-' :: rest => (true, rest)
    | '+' :: rest => (false, rest)
    | _ => (false, cs0)
  let neg := signedNeg.1
  let cs := signedNeg.2
  if cs.take 8 = ("Infinity").data then JsNum.inf (!neg)
  else
    let intDigits := cs.takeWhile Char.isDigit
    let cs1 := cs.dropWhile Char.isDigit
    let fracSplit : List Char × List Char :=
      match cs1 with
      | '.' :: rest => (rest.takeWhile Char.isDigit, rest.dropWhile Char.isDigit)
      | _ => ([], cs1)
    let fracDigits := fracSplit.1
    let cs2 := fracSplit.2
    if intDigits.isEmpty && fracDigits.isEmpty then JsNum.nan
    else
      let mant : Rat :=
        (digitsVal intDigits : Rat) + (digitsVal fracDigits : Rat) / (10 : Rat) ^ fracDigits.length
      let expVal : Int :=
        match cs2 with
        | 'e' :: rest | 'E' :: rest =>
          let esigned : Bool × List Char :=
            match rest with
            | '-' :: r => (true, r)
            | '+' :: r => (false, r)
            | _ => (false, rest)
          let eds := esigned.2.takeWhile Char.isDigit
          if eds.isEmpty then 0
          else if esigned.1 then -(digitsVal eds : Int) else (digitsVal eds : Int)
        | _ => 0
      let v : Rat := mant * (10 : Rat) ^ expVal
      JsNum.num (if neg then -v else v)

/-- JavaScript comparison `x > 0` on a `parseFloat` result:
`NaN > 0` is false, `Infinity > 0` is true, `-Infinity > 0` is false. -/
def jsPositive : JsNum → Bool
  | JsNum.nan => false
  | JsNum.inf pos => pos
  | JsNum.num q => decide (0 < q)

/-- `accounts.some(a => a.platform === 'meta' && a.status === 'connected')`. -/
def metaConnected (accounts : List AdAccount) : Bool :=
  accounts.any (fun a => a.platform == Platform.meta && a.status == ConnStatus.connected)

/-- `accounts.some(a => a.platform === 'google' && a.status === 'connected')`. -/
def googleConnected (accounts : List AdAccount) : Bool :=
  accounts.any (fun a => a.platform == Platform.google && a.status == ConnStatus.connected)

/-- The deploy gate with the budget already parsed:
`(metaConnected || googleConnected) && parseFloat(budget) > 0`. -/
def canDeployVal (accounts : List AdAccount) (budgetVal : JsNum) : Bool :=
  (metaConnected accounts || googleConnected accounts) && jsPositive budgetVal

/-- `canDeploy` exactly as in `AccountSetup`: the budget is the raw
string held by the input field, passed through `parseFloat`. -/
def canDeploy (accounts : List AdAccount) (budget : String) : Bool :=
  canDeployVal accounts (jsParseFloat budget)

/-- The deploy-section blurb rendered next to the launch button: one
fixed message when `canDeploy` holds and one fixed message when it
does not. -/
def deployMessage (accounts : List AdAccount) (budget : String) : String :=
  if canDeploy accounts budget then
    "Credentials saved and platforms authorized. Launch automation now."
  else
    "Save credentials, authorize platforms, and set a budget to launch."

/-- The three budget-share fractions held in the Settings form
(`prospecting_pct + retargeting_pct + testing_pct` should be 1). -/
structure Allocations where
  prospecting_pct : Rat
  retargeting_pct : Rat
  testing_pct : Rat
deriving DecidableEq, Repr

/-- `total` as computed at the top of `saveBudget`. -/
def allocTotal (a : Allocations) : Rat :=
  a.prospecting_pct + a.retargeting_pct + a.testing_pct

/-- JavaScript `x.toFixed(0)` on an exact value: round to the nearest
integer, ties toward the larger integer. -/
def toFixed0 (x : Rat) : Int :=
  Int.floor (x + 1 / 2)

/-- The rejection message of `saveBudget`:
`Allocations must sum to 100% (currently NN%)` where `NN` is
`(total * 100).toFixed(0)`. -/
def budgetErrorText (total : Rat) : String :=
  "Allocations must sum to 100% (currently " ++ toString (toFixed0 (total * 100)) ++ "%)"

/-- Outcome of one `saveBudget` attempt: the `PUT /clients/me/budget`
body if one was issued (`none` means no network call), and the message
shown to the user. -/
structure SaveBudgetOutcome where
  networkPut : Option Allocations
  message : String
deriving DecidableEq, Repr

/-- `saveBudget` from `Settings.tsx`: compute the total; if
`Math.abs(total - 1) > 0.01` set the error message and return before
any network call; otherwise `PUT` the allocations unchanged. -/
def saveBudget (a : Allocations) : SaveBudgetOutcome :=
  if 1 / 100 < |allocTotal a - 1| then
    { networkPut := none, message := budgetErrorText (allocTotal a) }
  else
    { networkPut := some a, message := "Budget allocations saved!" }

/-- The user profile returned by `GET /auth/me`. -/
structure Profile where
  id : Nat
  email : String
  full_name : String
  role : String
  is_active : Bool
  created_at : String
deriving DecidableEq, Repr

/-- State of the `AuthProvider` component plus the durable storage it
owns: `storedToken` is `localStorage['fage_token']`, `token` / `user` /
`isLoading` are the React state cells, `pending` counts in-flight
`GET /auth/me` requests, and `calls` counts every network request the
session store has issued. -/
structure SessionState where
  storedToken : Option String
  token : Option String
  user : Option Profile
  isLoading : Bool
  pending : Nat
  calls : Nat
deriving DecidableEq, Repr

/-- The `useEffect` body that runs whenever `token` changes (and once
on mount): with a token present it starts `fetchUser()` (one more
in-flight request, one more network call), otherwise it just sets
`isLoading` to false. -/
def runEffect (s : SessionState) : SessionState :=
  if s.token.isSome then
    { s with pending := s.pending + 1, calls := s.calls + 1 }
  else
    { s with isLoading := false }

/-- Component state at mount: `user = null`,
`token = localStorage.getItem('fage_token')`, `isLoading = true`,
nothing in flight yet. -/
def initState (stored : Option String) : SessionState :=
  { storedToken := stored, token := stored, user := none,
    isLoading := true, pending := 0, calls := 0 }

/-- Boot: mount the provider with the given durable token and run the
mount effect. -/
def boot (stored : Option String) : SessionState :=
  runEffect (initState stored)

/-- A pending `fetchUser` resolves successfully with profile `p`:
`setUser(res.data)` then (finally) `setIsLoading(false)`.  Nothing
guards against the token having been cleared in the meantime. -/
def fetchOkStep (s : SessionState) (p : Profile) : SessionState :=
  if s.pending = 0 then s
  else { s with user := some p, isLoading := false, pending := s.pending - 1 }

/-- A pending `fetchUser` fails: remove the durable token, clear
`token` and `user`, and (finally) set `isLoading` to false. -/
def fetchErrStep (s : SessionState) : SessionState :=
  if s.pending = 0 then s
  else { s with storedToken := none, token := none, user := none,
                isLoading := false, pending := s.pending - 1 }

/-- Store a freshly issued token: `localStorage.setItem` then
`setToken`; when the token cell actually changes, the token effect
re-runs and starts a profile fetch. -/
def applyToken (s : SessionState) (tok : String) : SessionState :=
  let s1 := { s with storedToken := some tok, token := some tok }
  if s.token = some tok then s1 else runEffect s1

/-- `login` from `AuthContext.tsx`, with the server's answer to
`POST /auth/login` passed explicitly: on success the `access_token` is
written durably and installed before the call returns; on failure the
call changes nothing and rethrows (the request body `{email, password}`
only feeds the wire request and is elided). -/
def loginCall (s : SessionState) (resp : Except String String) :
    SessionState × Except String Unit :=
  match resp with
  | Except.error e => ({ s with calls := s.calls + 1 }, Except.error e)
  | Except.ok tok => (applyToken { s with calls := s.calls + 1 } tok, Except.ok ())

/-- `register` from `AuthContext.tsx`: identical handling of the
`POST /auth/register` response (the body `{email, password, full_name}`
only feeds the wire request and is elided). -/
def registerCall (s : SessionState) (resp : Except String String) :
    SessionState × Except String Unit :=
  match resp with
  | Except.error e => ({ s with calls := s.calls + 1 }, Except.error e)
  | Except.ok tok => (applyToken { s with calls := s.calls + 1 } tok, Except.ok ())

/-- `logout`: remove the durable token, `setToken(null)`,
`setUser(null)`; if the token cell changed, the token effect re-runs
on the now-absent token and sets `isLoading` to false. -/
def logoutStep (s : SessionState) : SessionState :=
  let s1 := { s with storedToken := none, token := none, user := none }
  if s.token.isSome then { s1 with isLoading := false } else s1

/-- Events the session store reacts to after boot: resolutions of the
profile fetch, completions of `login` / `register`, and `logout`. -/
inductive Ev where
  | fetchOk (p : Profile)
  | fetchErr
  | loginOk (tok : String)
  | loginErr (e : String)
  | registerOk (tok : String)
  | registerErr (e : String)
  | logout
deriving DecidableEq, Repr

/-- One event applied to the session state.  A fetch resolution with
nothing in flight is a no-op (no response arrives without a request). -/
def step (s : SessionState) : Ev → SessionState
  | Ev.fetchOk p => fetchOkStep s p
  | Ev.fetchErr => fetchErrStep s
  | Ev.loginOk tok => (loginCall s (Except.ok tok)).1
  | Ev.loginErr e => (loginCall s (Except.error e)).1
  | Ev.registerOk tok => (registerCall s (Except.ok tok)).1
  | Ev.registerErr e => (registerCall s (Except.error e)).1
  | Ev.logout => logoutStep s

/-- Run the session store: boot from the given durable token, then
apply a sequence of events. -/
def run (stored : Option String) (evs : List Ev) : SessionState :=
  evs.foldl step (boot stored)

/-- The session phases of the specification: `unauthenticated` (no
token), `authenticating` (token present, profile not yet resolved),
`authenticated` (token present and profile resolved). -/
inductive Phase where
  | unauthenticated
  | authenticating
  | authenticated
deriving DecidableEq, Repr

/-- Phase of a session state, per the specification's state machine. -/
def phase (s : SessionState) : Phase :=
  match s.token, s.user with
  | none, _ => Phase.unauthenticated
  | some _, none => Phase.authenticating
  | some _, some _ => Phase.authenticated

/-- Visibility class of a route: wrapped in `ProtectedRoute` or in
`PublicRoute`. -/
inductive RouteClass where
  | protectedRoute
  | publicRoute
deriving DecidableEq, Repr

/-- Where a gate redirect points. -/
inductive RedirectTarget where
  | login
  | dashboard
deriving DecidableEq, Repr

/-- What a route gate renders: the loading spinner, the wrapped
content, or a `Navigate` (with its `replace` flag). -/
inductive GateDecision where
  | renderLoading
  | renderContent
  | redirect (target : RedirectTarget) (replace : Bool)
deriving DecidableEq, Repr

/-- `ProtectedRoute` from `App.tsx`: spinner while `isLoading`, then
`Navigate to=/login replace` when `user` is absent, else the children. -/
def ProtectedRoute (user : Option Profile) (isLoading : Bool) : GateDecision :=
  if isLoading then GateDecision.renderLoading
  else if user.isNone then GateDecision.redirect RedirectTarget.login true
  else GateDecision.renderContent

/-- `PublicRoute` from `App.tsx`: spinner while `isLoading`, then
`Navigate to=/dashboard replace` when `user` is present, else the
children. -/
def PublicRoute (user : Option Profile) (isLoading : Bool) : GateDecision :=
  if isLoading then GateDecision.renderLoading
  else if user.isSome then GateDecision.redirect RedirectTarget.dashboard true
  else GateDecision.renderContent

/-- The AuthGate of the code: dispatch a session state and a route
class to the matching gate component, which reads only `user` and
`isLoading`. -/
def authGate (s : SessionState) (r : RouteClass) : GateDecision :=
  match r with
  | RouteClass.protectedRoute => ProtectedRoute s.user s.isLoading
  | RouteClass.publicRoute => PublicRoute s.user s.isLoading

/-- Modelled from the claim's words, for comparison with `authGate`:
loading wins; else a protected route with an `Unauthenticated` session
redirects to login; else a public route with an `Authenticated` session
redirects to the dashboard; otherwise the content renders.  Session
phases are the specification's (`phase`). -/
def authGateClaim (s : SessionState) (r : RouteClass) : GateDecision :=
  if s.isLoading then GateDecision.renderLoading
  else if r = RouteClass.protectedRoute ∧ phase s = Phase.unauthenticated then
    GateDecision.redirect RedirectTarget.login true
  else if r = RouteClass.publicRoute ∧ phase s = Phase.authenticated then
    GateDecision.redirect RedirectTarget.dashboard true
  else GateDecision.renderContent

/-- The amended decision table: the gates key on the presence of a
resolved profile (`user`), not on the specification's session phase, so
a token-present-but-unresolved session is treated like an
unauthenticated one on protected routes. -/
def authGateAmended (s : SessionState) (r : RouteClass) : GateDecision :=
  if s.isLoading then GateDecision.renderLoading
  else if r = RouteClass.protectedRoute ∧ s.user = none then
    GateDecision.redirect RedirectTarget.login true
  else if r = RouteClass.publicRoute ∧ s.user ≠ none then
    GateDecision.redirect RedirectTarget.dashboard true
  else GateDecision.renderContent

/-- A demo profile, used to drive concrete traces through the session
machine. -/
def profileDemo : Profile :=
  { id := 1, email := "ada@example.com", full_name := "Ada Lovelace",
    role := "client", is_active := true, created_at := "2026-01-01" }

/-- A demo bearer token for concrete traces. -/
def tokDemo : String := "tok-123"

/-- Budget string with the value 500. -/
def budget500 : String := "500"

/-- Budget string with the value 0. -/
def budget0 : String := "0"

/-- The empty budget string (`parseFloat` yields `NaN`). -/
def budgetEmpty : String := ""

/-- A non-numeric budget string (`parseFloat` yields `NaN`). -/
def budgetText : String := "launch now"

/-- A demo network-error payload. -/
def errDemo : String := "network down"

/-- A connected Meta ad account. -/
def accMetaConnected : AdAccount :=
  { platform := Platform.meta, status := ConnStatus.connected }

/-- A disconnected Meta ad account. -/
def accMetaDisconnected : AdAccount :=
  { platform := Platform.meta, status := ConnStatus.disconnected }

/-- A disconnected Google ad account. -/
def accGoogleDisconnected : AdAccount :=
  { platform := Platform.google, status := ConnStatus.disconnected }

/-- C1: a `logout()` issued while the boot-time profile fetch is in
flight does NOT keep the session cleared in the code: when the fetch
later resolves, `setUser(res.data)` runs unguarded and installs the
profile (the cleared token itself does stay absent), contradicting the
no-resurrection requirement. -/
theorem logout_inflight_fetch_resurrects_user :
    (run (some tokDemo) [Ev.logout, Ev.fetchOk profileDemo]).user = some profileDemo ∧
    (run (some tokDemo) [Ev.logout, Ev.fetchOk profileDemo]).token = none ∧
    (run (some tokDemo) [Ev.logout, Ev.fetchOk profileDemo]).storedToken = none := by
  decide

/-- C2: the deploy gate is true exactly when some ad-account entry is
connected and the budget value is positive; in particular it is false
for two disconnected platforms with budget 500, true for a connected
Meta account with budget 500, and false for a connected Meta account
with budget 0. -/
theorem canDeploy_iff_connected_and_positive_budget :
    (∀ (accounts : List AdAccount) (b : Rat),
      canDeployVal accounts (JsNum.num b) = true ↔
        ((∃ a ∈ accounts, a.status = ConnStatus.connected) ∧ 0 < b))
    ∧ canDeployVal [accMetaDisconnected, accGoogleDisconnected] (JsNum.num 500) = false
    ∧ canDeployVal [accMetaConnected] (JsNum.num 500) = true
    ∧ canDeployVal [accMetaConnected] (JsNum.num 0) = false := by
  refine ⟨?_, by decide, by decide, by decide⟩
  intro accounts b
  simp only [canDeployVal, jsPositive, Bool.and_eq_true, Bool.or_eq_true, metaConnected,
    googleConnected, List.any_eq_true, beq_iff_eq, decide_eq_true_eq]
  constructor
  · rintro ⟨h1 | h1, hb⟩ <;> obtain ⟨a, ha, h2, h3⟩ := h1 <;> exact ⟨⟨a, ha, h3⟩, hb⟩
  · rintro ⟨⟨a, ha, hc⟩, hb⟩
    refine ⟨?_, hb⟩
    cases hp : a.platform
    · exact Or.inl ⟨a, ha, hp, hc⟩
    · exact Or.inr ⟨a, ha, hp, hc⟩

/-- C2 witness: the equivalence instantiated at a connected Meta
account and budget 500. -/
theorem canDeploy_iff_connected_and_positive_budget_witness :
    canDeployVal [accMetaConnected] (JsNum.num 500) = true ↔
      ((∃ a ∈ [accMetaConnected], a.status = ConnStatus.connected) ∧ (0 : Rat) < 500) :=
  canDeploy_iff_connected_and_positive_budget.1 [accMetaConnected] 500

/-- C3: `saveBudget` issues the `PUT` with the triple unchanged exactly
when the total is within 0.01 of 1; otherwise it issues no network call
and its message names the total rounded to a whole percent — `94%` for
a total of 0.94 and `107%` for a total of 1.07. -/
theorem saveBudget_accepts_iff_within_tolerance :
    (∀ a : Allocations,
      (saveBudget a).networkPut = some a ↔ |allocTotal a - 1| ≤ 1 / 100)
    ∧ (∀ a : Allocations, 1 / 100 < |allocTotal a - 1| →
        (saveBudget a).networkPut = none ∧
        (saveBudget a).message = budgetErrorText (allocTotal a))
    ∧ saveBudget { prospecting_pct := 47/100, retargeting_pct := 32/100, testing_pct := 15/100 }
        = { networkPut := none,
            message := "Allocations must sum to 100% (currently 94%)" }
    ∧ saveBudget { prospecting_pct := 1/2, retargeting_pct := 42/100, testing_pct := 15/100 }
        = { networkPut := none,
            message := "Allocations must sum to 100% (currently 107%)" } := by
  refine ⟨?_, ?_, ?_, ?_⟩
  · intro a
    by_cases h : (1 : Rat) / 100 < |allocTotal a - 1|
    · unfold saveBudget
      rw [if_pos h]
      constructor
      · intro hc
        exact Option.noConfusion hc
      · intro hle
        exact absurd h (not_lt.mpr hle)
    · unfold saveBudget
      rw [if_neg h]
      exact iff_of_true rfl (not_lt.mp h)
  · intro a h
    unfold saveBudget
    rw [if_pos h]
    exact ⟨rfl, rfl⟩
  · have e1 : allocTotal { prospecting_pct := 47/100, retargeting_pct := 32/100, testing_pct := 15/100 }
        = 94/100 := by
      norm_num [allocTotal]
    have h1 : (1 : Rat) / 100 < |(94 : Rat)/100 - 1| := by
      rw [lt_abs]
      right
      norm_num
    have f1 : toFixed0 ((94 : Rat)/100 * 100) = 94 := by
      unfold toFixed0
      rw [Int.floor_eq_iff]
      norm_num
    have m1 : budgetErrorText ((94 : Rat)/100)
        = "Allocations must sum to 100% (currently 94%)" := by
      unfold budgetErrorText
      rw [f1]
      rfl
    unfold saveBudget
    rw [e1, if_pos h1, m1]
  · have e2 : allocTotal { prospecting_pct := 1/2, retargeting_pct := 42/100, testing_pct := 15/100 }
        = 107/100 := by
      norm_num [allocTotal]
    have h2 : (1 : Rat) / 100 < |(107 : Rat)/100 - 1| := by
      rw [lt_abs]
      left
      norm_num
    have f2 : toFixed0 ((107 : Rat)/100 * 100) = 107 := by
      unfold toFixed0
      rw [Int.floor_eq_iff]
      norm_num
    have m2 : budgetErrorText ((107 : Rat)/100)
        = "Allocations must sum to 100% (currently 107%)" := by
      unfold budgetErrorText
      rw [f2]
      rfl
    unfold saveBudget
    rw [e2, if_pos h2, m2]

/-- C3 witness: the rejection branch instantiated at the triple
(0.47, 0.32, 0.15), whose total 0.94 misses 1 by more than 0.01. -/
theorem saveBudget_accepts_iff_within_tolerance_witness :
    (saveBudget { prospecting_pct := 47/100, retargeting_pct := 32/100, testing_pct := 15/100 }).networkPut = none ∧
    (saveBudget { prospecting_pct := 47/100, retargeting_pct := 32/100, testing_pct := 15/100 }).message
      = budgetErrorText (allocTotal { prospecting_pct := 47/100, retargeting_pct := 32/100, testing_pct := 15/100 }) :=
  saveBudget_accepts_iff_within_tolerance.2.1
    { prospecting_pct := 47/100, retargeting_pct := 32/100, testing_pct := 15/100 }
    (by
      have e1 : allocTotal { prospecting_pct := 47/100, retargeting_pct := 32/100, testing_pct := 15/100 }
          = 94/100 := by
        norm_num [allocTotal]
      rw [e1, lt_abs]
      right
      norm_num)

/-- C4 counterexample: the post-login session (token installed, profile
fetch still unresolved, `isLoading` false) is in the `Authenticating`
phase, so the claim's decision table renders the protected content,
while the code's gate redirects to login. -/
theorem authGate_differs_from_claim_on_authenticating :
    phase (run none [Ev.loginOk tokDemo]) = Phase.authenticating ∧
    (run none [Ev.loginOk tokDemo]).isLoading = false ∧
    authGateClaim (run none [Ev.loginOk tokDemo]) RouteClass.protectedRoute
      = GateDecision.renderContent ∧
    authGate (run none [Ev.loginOk tokDemo]) RouteClass.protectedRoute
      = GateDecision.redirect RedirectTarget.login true := by
  decide

/-- C4 amended: the gate decision table holds with profile presence in
place of the session phase — loading wins; else a protected route with
no resolved profile redirects to login replacing history; else a public
route with a resolved profile redirects to the dashboard replacing
history; otherwise the content renders. -/
theorem authGate_eq_amended_table :
    ∀ (s : SessionState) (r : RouteClass), authGate s r = authGateAmended s r := by
  intro s r
  cases r <;> cases hl : s.isLoading <;> cases hu : s.user <;>
    simp [authGate, ProtectedRoute, PublicRoute, authGateAmended, hl, hu]

/-- C4 witness: the amended table instantiated at the freshly booted
tokenless session on a protected route. -/
theorem authGate_eq_amended_table_witness :
    authGate (boot none) RouteClass.protectedRoute
      = authGateAmended (boot none) RouteClass.protectedRoute :=
  authGate_eq_amended_table (boot none) RouteClass.protectedRoute

/-- C5: the invariant "user present implies token present" is violated
in a reachable state — log in, log out while the triggered profile
fetch is in flight, then let the fetch resolve: the resolved profile is
installed while both token cells stay cleared. -/
theorem user_present_without_token_reachable :
    (run none [Ev.loginOk tokDemo, Ev.logout, Ev.fetchOk profileDemo]).user = some profileDemo ∧
    (run none [Ev.loginOk tokDemo, Ev.logout, Ev.fetchOk profileDemo]).token = none ∧
    (run none [Ev.loginOk tokDemo, Ev.logout, Ev.fetchOk profileDemo]).storedToken = none := by
  decide

/-- C6: booting with no durable token lands directly in the
`Unauthenticated` phase with `isLoading` false, no request in flight
and zero network calls issued. -/
theorem boot_without_token_unauthenticated_no_network :
    phase (boot none) = Phase.unauthenticated ∧
    (boot none).isLoading = false ∧
    (boot none).user = none ∧
    (boot none).token = none ∧
    (boot none).calls = 0 ∧
    (boot none).pending = 0 := by
  decide

/-- C7: booting with a durable token whose profile fetch fails (for any
token and any failure, authorization errors included) ends in the
`Unauthenticated` phase with the durable token cleared and `token`,
`user` absent and `isLoading` false. -/
theorem boot_fetch_failure_clears_session (t : String) :
    phase (step (boot (some t)) Ev.fetchErr) = Phase.unauthenticated ∧
    (step (boot (some t)) Ev.fetchErr).storedToken = none ∧
    (step (boot (some t)) Ev.fetchErr).token = none ∧
    (step (boot (some t)) Ev.fetchErr).user = none ∧
    (step (boot (some t)) Ev.fetchErr).isLoading = false := by
  simp [step, boot, runEffect, initState, fetchErrStep, phase]

/-- C7 witness: the failed-boot theorem instantiated at the demo
token. -/
theorem boot_fetch_failure_clears_session_witness :
    phase (step (boot (some tokDemo)) Ev.fetchErr) = Phase.unauthenticated ∧
    (step (boot (some tokDemo)) Ev.fetchErr).storedToken = none ∧
    (step (boot (some tokDemo)) Ev.fetchErr).token = none ∧
    (step (boot (some tokDemo)) Ev.fetchErr).user = none ∧
    (step (boot (some tokDemo)) Ev.fetchErr).isLoading = false :=
  boot_fetch_failure_clears_session tokDemo

/-- C8: for any state and any server response, a successful `login` or
`register` writes the returned token to durable storage (and installs
it) before returning, while a failed one leaves every session field
unchanged and propagates the error to the caller. -/
theorem login_register_durable_on_success_unchanged_on_failure :
    ∀ (s : SessionState) (tok e : String),
      ((loginCall s (Except.ok tok)).1.storedToken = some tok ∧
        (loginCall s (Except.ok tok)).1.token = some tok ∧
        (loginCall s (Except.ok tok)).2 = Except.ok () ∧
        (loginCall s (Except.error e)).1.storedToken = s.storedToken ∧
        (loginCall s (Except.error e)).1.token = s.token ∧
        (loginCall s (Except.error e)).1.user = s.user ∧
        (loginCall s (Except.error e)).1.isLoading = s.isLoading ∧
        (loginCall s (Except.error e)).2 = Except.error e) ∧
      ((registerCall s (Except.ok tok)).1.storedToken = some tok ∧
        (registerCall s (Except.ok tok)).1.token = some tok ∧
        (registerCall s (Except.ok tok)).2 = Except.ok () ∧
        (registerCall s (Except.error e)).1.storedToken = s.storedToken ∧
        (registerCall s (Except.error e)).1.token = s.token ∧
        (registerCall s (Except.error e)).1.user = s.user ∧
        (registerCall s (Except.error e)).1.isLoading = s.isLoading ∧
        (registerCall s (Except.error e)).2 = Except.error e) := by
  intro s tok e
  by_cases h : s.token = some tok <;>
    simp [loginCall, registerCall, applyToken, runEffect, h]

/-- C8 witness: the login/register contract instantiated at the freshly
booted tokenless session, the demo token and a demo network error. -/
theorem login_register_contract_witness :
    (loginCall (boot none) (Except.ok tokDemo)).1.storedToken = some tokDemo ∧
    (loginCall (boot none) (Except.error errDemo)).1.token = (boot none).token ∧
    (loginCall (boot none) (Except.error errDemo)).2 = Except.error errDemo ∧
    (registerCall (boot none) (Except.ok tokDemo)).1.storedToken = some tokDemo ∧
    (registerCall (boot none) (Except.error errDemo)).2 = Except.error errDemo := by
  have h := login_register_durable_on_success_unchanged_on_failure (boot none) tokDemo errDemo
  exact ⟨h.1.1, h.1.2.2.2.2.1, h.1.2.2.2.2.2.2.2, h.2.1, h.2.2.2.2.2.2.2.2⟩

/-- C9 counterexample: the deploy blurb is one fixed sentence whenever
`canDeploy` is false — the no-connected-platform case (budget 500), the
no-budget case (connected Meta account, empty budget) and the
both-missing case all render the identical message, so the three
failure cases are not distinguished. -/
theorem deployMessage_identical_across_failure_modes :
    canDeploy [accMetaDisconnected] budget500 = false ∧
    canDeploy [accMetaConnected] budgetEmpty = false ∧
    canDeploy [accMetaDisconnected] budgetEmpty = false ∧
    deployMessage [accMetaDisconnected] budget500 = deployMessage [accMetaConnected] budgetEmpty ∧
    deployMessage [accMetaConnected] budgetEmpty = deployMessage [accMetaDisconnected] budgetEmpty := by
  decide

/-- C9 amended: whenever `canDeploy` is false the component does render
a human-readable reason, but it is the single fixed sentence
`Save credentials, authorize platforms, and set a budget to launch.`
for all three failure cases alike. -/
theorem deployMessage_fixed_when_not_deployable :
    ∀ (accounts : List AdAccount) (budget : String),
      canDeploy accounts budget = false →
      deployMessage accounts budget
        = "Save credentials, authorize platforms, and set a budget to launch." := by
  intro accounts budget h
  simp [deployMessage, h]

/-- C9 witness: the fixed failure blurb at a disconnected Meta account
and budget 0. -/
theorem deployMessage_fixed_when_not_deployable_witness :
    canDeploy [accMetaDisconnected] budget0 = false ∧
    deployMessage [accMetaDisconnected] budget0
      = "Save credentials, authorize platforms, and set a budget to launch." :=
  ⟨by decide, deployMessage_fixed_when_not_deployable [accMetaDisconnected] budget0 (by decide)⟩

/-- C10: `parseFloat` yields `NaN` on the empty and on non-numeric
budget strings, and for every budget string whose parse is not a value
greater than zero the deploy gate evaluates to false, whatever the
connections are — the evaluator is a total function on strings. -/
theorem canDeploy_false_on_malformed_budget :
    jsParseFloat budgetEmpty = JsNum.nan ∧
    jsParseFloat budgetText = JsNum.nan ∧
    (∀ (accounts : List AdAccount) (budget : String),
      jsPositive (jsParseFloat budget) = false → canDeploy accounts budget = false) := by
  refine ⟨by decide, by decide, ?_⟩
  intro accounts budget h
  simp [canDeploy, canDeployVal, h]

/-- C10 witness: the gate at a connected Meta account and the empty
budget string. -/
theorem canDeploy_false_on_malformed_budget_witness :
    jsPositive (jsParseFloat budgetEmpty) = false ∧
    canDeploy [accMetaConnected] budgetEmpty = false :=
  ⟨by decide, canDeploy_false_on_malformed_budget.2.2 [accMetaConnected] budgetEmpty (by decide)⟩
